import Mathlib

/-!
Verification of the Quiz & Progress Lifecycle of the AI tutoring
application (src/app.py).

The Python source is shallowly embedded: the SQLite tables become a `DB`
record holding the row lists and the auto-increment counters; the
Streamlit session state becomes a `SessionState` record; external
collaborators (bcrypt hashing/checking, the remote content-generation
call, the JSON parser) are passed in as explicit parameters or as an
already-parsed value, since their outcomes are inputs to the code under
study.  Each definition carries a comment pointing at the source lines
it embeds.
-/

/-- Row of the `users` table (src/app.py lines 33-42): id, email,
password_hash, age, last_login (nullable timestamp, modelled as
`Option Nat`).  `created_at` plays no role in any claim and is omitted. -/
structure UserRec where
  id : Nat
  email : String
  password_hash : String
  age : Nat
  last_login : Option Nat
deriving DecidableEq

/-- Row of the `user_progress` table (src/app.py lines 45-54):
id, user_id, topic, quiz_score.  `completed_at` is omitted. -/
structure ProgressRec where
  id : Nat
  user_id : Nat
  topic : String
  quiz_score : Nat
deriving DecidableEq

/-- The SQLite database `users.db`: both tables together with their
auto-increment counters. -/
structure DB where
  users : List UserRec
  next_user_id : Nat
  user_progress : List ProgressRec
  next_progress_id : Nat
deriving DecidableEq

/-- The dictionary returned by `authenticate_user` on success
(src/app.py lines 108-112): id, email and age, without the hash. -/
structure AccountView where
  id : Nat
  email : String
  age : Nat
deriving DecidableEq

/-- Embeds `create_user` (src/app.py lines 68-86).  `hash_fn` stands for
`hash_password_secure` (bcrypt with a fresh salt; external, hence a
parameter).  The INSERT succeeds and returns `cursor.lastrowid` unless
the UNIQUE constraint on `users.email` fires, in which case the
`sqlite3.IntegrityError` handler returns `None` and the table is left
unchanged. -/
def create_user (hash_fn : String → String) (db : DB) (email password : String)
    (age : Nat) : Option Nat × DB :=
  if db.users.any (fun u => u.email == email) then
    (none, db)
  else
    (some db.next_user_id,
      { db with
          users := db.users ++ [⟨db.next_user_id, email, hash_fn password, age, none⟩],
          next_user_id := db.next_user_id + 1 })

/-- Embeds `authenticate_user` (src/app.py lines 88-115).  `checkpw`
stands for `bcrypt.checkpw` (external); `now` is the CURRENT_TIMESTAMP
used by the last-login UPDATE.  Lookup is by email (unique, so
`find?` matches the SQL `fetchone`); on a found row with a matching
password the last_login column is updated and the id/email/age
dictionary is returned; otherwise the result is `none` — the same value
whether the email was unknown or the password wrong. -/
def authenticate_user (checkpw : String → String → Bool) (db : DB)
    (email password : String) (now : Nat) : Option AccountView × DB :=
  match db.users.find? (fun u => u.email == email) with
  | none => (none, db)
  | some u =>
      if checkpw password u.password_hash then
        (some ⟨u.id, email, u.age⟩,
          { db with
              users := db.users.map fun v =>
                if v.id == u.id then { v with last_login := some now } else v })
      else (none, db)

/-- Embeds `save_user_progress` (src/app.py lines 117-129): a single
INSERT appending one row to `user_progress`. -/
def save_user_progress (db : DB) (user_id : Nat) (topic : String)
    (score : Nat) : DB :=
  { db with
      user_progress := db.user_progress ++ [⟨db.next_progress_id, user_id, topic, score⟩],
      next_progress_id := db.next_progress_id + 1 }

/-- Embeds `get_age_appropriate_tone` (src/app.py lines 326-335), with
the exact tone strings of the source. -/
def get_age_appropriate_tone (age : Nat) : String :=
  if age < 13 then
    "friendly, simple, and encouraging like talking to a curious kid"
  else if age < 18 then
    "engaging and supportive like talking to a teenager"
  else if age < 25 then
    "enthusiastic and relatable like talking to a young adult"
  else
    "professional but approachable like talking to an adult professional"

/-- Outcome of one remote `openai.ChatCompletion.create` call as seen by
the `try`/`except` wrappers in the adapter: either the returned message
content, or the string of the raised exception. -/
inductive RemoteResult where
  | ok (content : String) : RemoteResult
  | err (msg : String) : RemoteResult
deriving DecidableEq

/-- Embeds `generate_lesson` (src/app.py lines 337-369).  The remote
call outcome is the `remote` parameter; the prompt built from `topic`
and `age` only feeds that call.  On success the message content is
returned; on any exception the handler returns the inline error string
— the function never raises to its caller. -/
def generate_lesson (_topic : String) (_age : Nat) (remote : RemoteResult) : String :=
  match remote with
  | .ok content => content
  | .err e => "Error generating lesson: " ++ e

/-- Embeds `answer_question` (src/app.py lines 429-454): same
degrade-to-inline-error shape as `generate_lesson`, with its own
message text (the source apostrophe is the escape \x27). -/
def answer_question (_question _lesson_topic : String) (_age : Nat)
    (remote : RemoteResult) : String :=
  match remote with
  | .ok content => content
  | .err e => "Sorry, I couldn\x27t process your question right now. Error: " ++ e

/-- JSON values, as produced by `json.loads`. -/
inductive JVal where
  | jnull : JVal
  | jbool (b : Bool) : JVal
  | jnum (n : Int) : JVal
  | jstr (s : String) : JVal
  | jarr (xs : List JVal) : JVal
  | jobj (kvs : List (String × JVal)) : JVal

/-- Key lookup in a parsed JSON object, i.e. the Python subscript
`quiz_data[key]` on a dict (keys are unique after parsing, so first
match suffices). -/
def jLookup (kvs : List (String × JVal)) (key : String) : Option JVal :=
  match kvs with
  | [] => none
  | (k, v) :: rest => if k == key then some v else jLookup rest key

/-- Embeds `generate_quiz` (src/app.py lines 371-427) from the point
where the fence-stripped response text has been handed to `json.loads`:
`parsed` is `none` when `json.loads` raises `JSONDecodeError`, and
`some v` when it yields the value `v`.  The result pairs the Python
return value with a flag recording whether `st.error` was called.

Tracing the source: on `JSONDecodeError` the first handler reports an
error and returns `[]`; on a parsed dict, `quiz_data["questions"]` is
returned as is, with no validation of its length or element shape; if
the key is missing (`KeyError`) or the parsed value is not a dict
(`TypeError` on the subscript), the generic `except Exception` handler
reports an error and returns `[]`. -/
def generate_quiz (parsed : Option JVal) : JVal × Bool :=
  match parsed with
  | none => (.jarr [], true)
  | some (.jobj kvs) =>
      match jLookup kvs "questions" with
      | some q => (q, false)
      | none => (.jarr [], true)
  | some _ => (.jarr [], true)

/-- Checks that a JSON value has the QuizItem shape the spec requires of
each element of `questions`: a `question` string, an `options` array of
exactly 4 strings, a `correct` integer in 0..3 and an `explanation`
string. -/
def isQuizItemJ (v : JVal) : Bool :=
  match v with
  | .jobj kvs =>
      (match jLookup kvs "question" with | some (.jstr _) => true | _ => false)
      && (match jLookup kvs "options" with
          | some (.jarr xs) =>
              xs.length == 4
              && xs.all (fun o => match o with | .jstr _ => true | _ => false)
          | _ => false)
      && (match jLookup kvs "correct" with
          | some (.jnum n) => (0 ≤ n && n ≤ 3 : Bool)
          | _ => false)
      && (match jLookup kvs "explanation" with | some (.jstr _) => true | _ => false)
  | _ => false

/-- Checks the full result shape the spec promises for a successful
`generate_quiz`: an array of exactly 8 well-formed QuizItems. -/
def isValidQuizResult (v : JVal) : Bool :=
  match v with
  | .jarr xs => xs.length == 8 && xs.all isQuizItemJ
  | _ => false

/-- One quiz question as read by `display_quiz` from the stored
dictionaries: the fields `question`, `options`, `correct`,
`explanation` (src/app.py lines 594-608).  `correct` is an `Int`
because the JSON integer is used directly as a Python list index. -/
structure QuizItem where
  question : String
  options : List String
  correct : Int
  explanation : String
deriving DecidableEq

/-- Python list indexing `l[i]` with an `int` index: non-negative
indices address from the front, negative indices from the back, and an
out-of-range index raises `IndexError` (modelled as `none`). -/
def pyGetIdx (l : List String) (i : Int) : Option String :=
  if 0 ≤ i then l.get? i.toNat
  else if 0 ≤ i + l.length then l.get? (i + l.length).toNat else none

/-- The Python dict read `st.session_state.quiz_answers.get(i, "")`
(src/app.py line 595): the recorded answer for question `i`, or the
empty string when none was recorded. -/
def answersGetD (ans : List (Nat × String)) (i : Nat) : String :=
  (ans.lookup i).getD ""

/-- The grading loop of `display_quiz` (src/app.py lines 593-606) from
question index `i` on: for each question, the recorded answer (empty
string when missing) is compared by string equality with the Python
expression indexing the options list at the correct field, and the
matches are counted.  A `none` result is the `IndexError` raised when
the correct index of some item is out of range for its options list. -/
def gradeQuizFrom (ans : List (Nat × String)) : Nat → List QuizItem → Option Nat
  | _, [] => some 0
  | i, q :: rest =>
      match pyGetIdx q.options q.correct, gradeQuizFrom ans (i + 1) rest with
      | some correct_option, some c =>
          some ((if answersGetD ans i == correct_option then 1 else 0) + c)
      | _, _ => none

/-- The `correct_count` computed by the graded branch of `display_quiz`
over the whole question list. -/
def gradeQuiz (qs : List QuizItem) (ans : List (Nat × String)) : Option Nat :=
  gradeQuizFrom ans 0 qs

/-- Modelled from the spec: grading compares, for each of the items
(Python `enumerate` order), the recorded answer string against the
option string located at the correct index of that item, by exact string
equality, and counts the matches. -/
def gradingSpec (qs : List QuizItem) (ans : List (Nat × String)) : Nat :=
  qs.enum.countP fun p =>
    answersGetD ans p.1 == (p.2.options.get? p.2.correct.toNat).getD ""

/-- Modelled from the spec: the number of question indices holding an
actually recorded answer that equals the correct option of the item; indices
with no recorded answer contribute nothing. -/
def gradingSpecAnswered (qs : List QuizItem) (ans : List (Nat × String)) : Nat :=
  qs.enum.countP fun p =>
    match ans.lookup p.1 with
    | some a => a == (p.2.options.get? p.2.correct.toNat).getD ""
    | none => false

/-- The two ways the graded view renders the final result (src/app.py
lines 616-619): the success box ("mastered this topic") or the warning
box ("review the lesson"). -/
inductive QuizOutcome where
  | mastered : QuizOutcome
  | needsReview : QuizOutcome
deriving DecidableEq

/-- Embeds the final-result branch of `display_quiz` (src/app.py lines
616-619): `if correct_count >= 5` renders the success box, else the
warning box. -/
def display_result (correct_count : Nat) : QuizOutcome :=
  if correct_count ≥ 5 then .mastered else .needsReview

/-- The Streamlit session state fields the quiz lifecycle uses
(src/app.py lines 228-241): login flag, user dictionary, lesson text,
topic, quiz questions, answer dictionary, submitted flag. -/
structure SessionState where
  logged_in : Bool
  user_data : Option AccountView
  current_lesson : Option String
  lesson_topic : String
  quiz_questions : List QuizItem
  quiz_answers : List (Nat × String)
  quiz_submitted : Bool
deriving DecidableEq

/-- Embeds the Retake Quiz button handler (src/app.py lines 623-626):
clear the submitted flag and the answer dictionary, touch nothing
else. -/
def retake_quiz (s : SessionState) : SessionState :=
  { s with quiz_submitted := false, quiz_answers := [] }

/-- Embeds the New Topic button handler (src/app.py lines 629-635):
clear the lesson, the topic, the questions, the answers and the
submitted flag. -/
def new_topic (s : SessionState) : SessionState :=
  { s with
      current_lesson := none,
      lesson_topic := "",
      quiz_questions := [],
      quiz_answers := [],
      quiz_submitted := false }

/-- Embeds the database effect of one execution of `display_quiz`
(src/app.py lines 563-635), which Streamlit re-runs on every
interaction.  When the session is not yet submitted the branch only
renders the form and leaves the database alone.  When it is submitted,
the graded branch recomputes `correct_count` and — every time it runs —
calls `save_user_progress` (lines 611-613) provided the user dictionary
has an id.  A `none` result is an uncaught `IndexError` from grading. -/
def display_quiz (s : SessionState) (db : DB) : Option DB :=
  if s.quiz_submitted then
    match gradeQuiz s.quiz_questions s.quiz_answers with
    | some correct_count =>
        match s.user_data with
        | some u => some (save_user_progress db u.id s.lesson_topic correct_count)
        | none => some db
    | none => none
  else some db

/-- A well-formed sample question used for concrete evaluations. -/
def q1ex : QuizItem :=
  ⟨"What does a loop do?", ["A) repeats", "B) stops", "C) waits", "D) prints"], 0, "Loops repeat."⟩

/-- A question whose correct option is the empty string (nothing in the
code validates option strings). -/
def qEmptyOpt : QuizItem :=
  ⟨"Odd question?", ["", "B) two", "C) three", "D) four"], 0, "Edge case."⟩

/-- A submitted session for user 1 on topic Loops with one answered
question. -/
def s1ex : SessionState :=
  ⟨true, some ⟨1, "alice@example.com", 16⟩, some "lesson text", "Loops",
    [q1ex], [(0, "A) repeats")], true⟩

/-- A database with one registered user and no progress rows. -/
def db0ex : DB :=
  ⟨[⟨1, "alice@example.com", "secret1#h", 16, none⟩], 2, [], 1⟩

/-- Deterministic stand-in hash function for concrete evaluations. -/
def wHash (password : String) : String := password ++ "#h"

/-- Deterministic stand-in for `bcrypt.checkpw`, consistent with
`wHash`. -/
def wCheck (password hashed : String) : Bool := wHash password == hashed

/-- A sample well-formed QuizItem in JSON form. -/
def sampleItemJ : JVal :=
  .jobj [("question", .jstr "What does a loop do?"),
         ("options", .jarr [.jstr "A) repeats", .jstr "B) stops", .jstr "C) waits", .jstr "D) prints"]),
         ("correct", .jnum 0),
         ("explanation", .jstr "Loops repeat.")]

/-! Theorems.  Each claim theorem carries its claim id in its doc
comment. -/

theorem gradeQuizFrom_eq_countP (ans : List (Nat × String)) :
    ∀ (qs : List QuizItem) (n : Nat),
      (∀ q ∈ qs, 0 ≤ q.correct ∧ q.correct.toNat < q.options.length) →
      gradeQuizFrom ans n qs =
        some ((List.enumFrom n qs).countP fun p =>
          answersGetD ans p.1 == (p.2.options.get? p.2.correct.toNat).getD "")
  | [], _, _ => rfl
  | q :: rest, n, h => by
      obtain ⟨h1, h2⟩ := h q (List.mem_cons_self _ _)
      obtain ⟨s, hs⟩ : ∃ s, q.options.get? q.correct.toNat = some s :=
        ⟨q.options.get ⟨q.correct.toNat, h2⟩, List.get?_eq_get h2⟩
      rw [List.get?_eq_getElem?] at hs
      have hpy : pyGetIdx q.options q.correct = some s := by
        simp [pyGetIdx, h1, hs]
      have ihr := gradeQuizFrom_eq_countP ans rest (n + 1)
        (fun q hq => h q (List.mem_cons_of_mem _ hq))
      simp [gradeQuizFrom, hpy, ihr, List.enumFrom, List.countP_cons, hs]
      omega

theorem countP_enumFrom_missing (ans : List (Nat × String)) :
    ∀ (qs : List QuizItem) (n : Nat),
      (∀ q ∈ qs, 0 ≤ q.correct ∧ q.correct.toNat < q.options.length) →
      (∀ q ∈ qs, ∀ o ∈ q.options, o ≠ "") →
      ((List.enumFrom n qs).countP fun p =>
          answersGetD ans p.1 == (p.2.options.get? p.2.correct.toNat).getD "") =
        ((List.enumFrom n qs).countP fun p =>
          match ans.lookup p.1 with
          | some a => a == (p.2.options.get? p.2.correct.toNat).getD ""
          | none => false)
  | [], _, _, _ => rfl
  | q :: rest, n, h, h2 => by
      have ihr := countP_enumFrom_missing ans rest (n + 1)
        (fun q hq => h q (List.mem_cons_of_mem _ hq))
        (fun q hq => h2 q (List.mem_cons_of_mem _ hq))
      obtain ⟨hc1, hc2⟩ := h q (List.mem_cons_self _ _)
      obtain ⟨s, hs⟩ : ∃ s, q.options.get? q.correct.toNat = some s :=
        ⟨q.options.get ⟨q.correct.toNat, hc2⟩, List.get?_eq_get hc2⟩
      have hmem : s ∈ q.options := List.get?_mem hs
      have hne : s ≠ "" := h2 q (List.mem_cons_self _ _) s hmem
      rw [List.get?_eq_getElem?] at hs
      simp only [List.enumFrom, List.countP_cons, ihr]
      cases hl : ans.lookup n with
      | some a => simp [answersGetD, hl]
      | none =>
          simp [answersGetD, hl, hs, Ne.symm hne]

/-- C3: grading iterates over the items and, for each index, compares
the recorded answer string by exact string equality with the option
string at the correct index of the item, counting matches; being a pure
function of the answer mapping and the item list, the computed integer
is the same on every recomputation. -/
theorem grading_matches_spec (qs : List QuizItem) (ans : List (Nat × String))
    (h : ∀ q ∈ qs, 0 ≤ q.correct ∧ q.correct.toNat < q.options.length) :
    gradeQuiz qs ans = some (gradingSpec qs ans) :=
  gradeQuizFrom_eq_countP ans qs 0 h

/-- Witness for C3 on a concrete one-item quiz. -/
theorem grading_matches_spec_witness :
    gradeQuiz [q1ex] [(0, "A) repeats")] = some (gradingSpec [q1ex] [(0, "A) repeats")]) :=
  grading_matches_spec [q1ex] [(0, "A) repeats")] (by decide)

/-- C10 (amended): a question index with no recorded answer is treated
as answering the empty string; provided every option string of every
item is non-empty, such an index counts as incorrect, so the
correct-count equals the number of indices holding a recorded answer
equal to the correct option of the item, and grading is total. -/
theorem grading_total_missing_as_empty (qs : List QuizItem) (ans : List (Nat × String))
    (h : ∀ q ∈ qs, 0 ≤ q.correct ∧ q.correct.toNat < q.options.length)
    (h2 : ∀ q ∈ qs, ∀ o ∈ q.options, o ≠ "") :
    gradeQuiz qs ans = some (gradingSpecAnswered qs ans) ∧
      ∀ i, ans.lookup i = none → answersGetD ans i = "" := by
  constructor
  · exact (gradeQuizFrom_eq_countP ans qs 0 h).trans
      (congrArg some (countP_enumFrom_missing ans qs 0 h h2))
  · intro i hi
    simp [answersGetD, hi]

/-- Witness for C10 on a concrete quiz with an unanswered question. -/
theorem grading_total_missing_as_empty_witness :
    gradeQuiz [q1ex] [] = some (gradingSpecAnswered [q1ex] []) :=
  (grading_total_missing_as_empty [q1ex] [] (by decide) (by decide)).1

/-- Counterexample to C10 as stated: with an item whose correct option
is the empty string, the missing answer (treated as the empty string)
equals the correct option and is counted as correct. -/
theorem grading_missing_counts_correct_on_empty_option :
    List.lookup 0 ([] : List (Nat × String)) = none ∧
    pyGetIdx qEmptyOpt.options qEmptyOpt.correct = some "" ∧
    gradeQuiz [qEmptyOpt] [] = some 1 :=
  ⟨rfl, rfl, rfl⟩

/-- C4: the graded view shows the mastered box exactly when the
correct-count is at least 5, and the needs-review box exactly when it
is below 5; in particular 5 is mastered and 4 is needs review. -/
theorem pass_threshold_boundary (c : Nat) :
    (display_result c = .mastered ↔ 5 ≤ c) ∧
    (display_result c = .needsReview ↔ c < 5) ∧
    display_result 5 = .mastered ∧ display_result 4 = .needsReview := by
  unfold display_result
  by_cases h : 5 ≤ c
  · exact ⟨iff_of_true (if_pos h) h, iff_of_false (by simp [h]) (by omega),
      by decide, by decide⟩
  · exact ⟨iff_of_false (by simp [h]) h, iff_of_true (if_neg h) (by omega),
      by decide, by decide⟩

/-- C7: the retake transition clears the answer mapping and the
submitted flag and keeps the question list; the new-topic transition
discards the question list, the answer mapping, the submitted flag and
the lesson context. -/
theorem retake_keeps_items_new_topic_discards (s : SessionState) :
    (retake_quiz s).quiz_questions = s.quiz_questions ∧
    (retake_quiz s).quiz_answers = [] ∧
    (retake_quiz s).quiz_submitted = false ∧
    (new_topic s).quiz_questions = [] ∧
    (new_topic s).quiz_answers = [] ∧
    (new_topic s).quiz_submitted = false ∧
    (new_topic s).current_lesson = none ∧
    (new_topic s).lesson_topic = "" :=
  ⟨rfl, rfl, rfl, rfl, rfl, rfl, rfl, rfl⟩

/-- C8: tone selection maps every age into exactly one of the four
bands, up to 12, 13 to 17, 18 to 24, and 25 or older, each yielding its
fixed tone string, with the band boundaries exact. -/
theorem tone_bands (age : Nat) :
    (age ≤ 12 ↔ get_age_appropriate_tone age =
      "friendly, simple, and encouraging like talking to a curious kid") ∧
    (13 ≤ age ∧ age ≤ 17 ↔ get_age_appropriate_tone age =
      "engaging and supportive like talking to a teenager") ∧
    (18 ≤ age ∧ age ≤ 24 ↔ get_age_appropriate_tone age =
      "enthusiastic and relatable like talking to a young adult") ∧
    (25 ≤ age ↔ get_age_appropriate_tone age =
      "professional but approachable like talking to an adult professional") := by
  unfold get_age_appropriate_tone
  split_ifs with h1 h2 h3
  · exact ⟨iff_of_true (by omega) rfl, iff_of_false (by omega) (by decide),
      iff_of_false (by omega) (by decide), iff_of_false (by omega) (by decide)⟩
  · exact ⟨iff_of_false (by omega) (by decide), iff_of_true (by omega) rfl,
      iff_of_false (by omega) (by decide), iff_of_false (by omega) (by decide)⟩
  · exact ⟨iff_of_false (by omega) (by decide), iff_of_false (by omega) (by decide),
      iff_of_true (by omega) rfl, iff_of_false (by omega) (by decide)⟩
  · exact ⟨iff_of_false (by omega) (by decide), iff_of_false (by omega) (by decide),
      iff_of_false (by omega) (by decide), iff_of_true (by omega) rfl⟩

/-- C9: lesson and free-text answer generation always return a string
to the caller, never an exception: the success content is returned as
is, and a remote failure becomes the inline error message text. -/
theorem content_service_never_raises (topic question : String) (age : Nat)
    (e content : String) :
    generate_lesson topic age (.err e) = "Error generating lesson: " ++ e ∧
    answer_question question topic age (.err e) =
      "Sorry, I couldn\x27t process your question right now. Error: " ++ e ∧
    generate_lesson topic age (.ok content) = content ∧
    answer_question question topic age (.ok content) = content :=
  ⟨rfl, rfl, rfl, rfl⟩

/-- C5: registering with an email equal to the email of a stored
account yields the duplicate outcome (none) and leaves the user table
unchanged; with a fresh email it appends exactly one record and returns
an identifier distinct from every stored id (given the auto-increment
counter dominates all stored ids). -/
theorem register_duplicate_email (hash_fn : String → String) (db : DB)
    (email password : String) (age : Nat) :
    (db.users.any (fun u => u.email == email) = true →
      create_user hash_fn db email password age = (none, db)) ∧
    (db.users.any (fun u => u.email == email) = false →
      create_user hash_fn db email password age =
        (some db.next_user_id,
          { db with
              users := db.users ++ [⟨db.next_user_id, email, hash_fn password, age, none⟩],
              next_user_id := db.next_user_id + 1 }) ∧
      (db.users.all (fun u => decide (u.id < db.next_user_id)) = true →
        ∀ u ∈ db.users, some u.id ≠ (create_user hash_fn db email password age).1)) := by
  constructor
  · intro hdup
    simp [create_user, hdup]
  · intro hfresh
    constructor
    · simp [create_user, hfresh]
    · intro hids u hu
      have hlt : u.id < db.next_user_id := by
        have := List.all_eq_true.mp hids u hu
        simpa using this
      simp [create_user, hfresh]
      omega

/-- Witness for C5: a duplicate registration is refused and leaves the
store unchanged; a fresh registration appends one record with a new
identifier. -/
theorem register_duplicate_email_witness :
    create_user wHash db0ex "alice@example.com" "secret1" 16 = (none, db0ex) ∧
    create_user wHash db0ex "bob@example.com" "secret2" 21 =
      (some 2,
        { db0ex with
            users := db0ex.users ++ [⟨2, "bob@example.com", wHash "secret2", 21, none⟩],
            next_user_id := 3 }) ∧
    ∀ u ∈ db0ex.users, some u.id ≠ (create_user wHash db0ex "bob@example.com" "secret2" 21).1 := by
  have hfresh := (register_duplicate_email wHash db0ex "bob@example.com" "secret2" 21).2 (by decide)
  exact ⟨(register_duplicate_email wHash db0ex "alice@example.com" "secret1" 16).1 (by decide),
    hfresh.1, hfresh.2 (by decide)⟩

/-- C6: every failed authentication, whether the email is unknown or
the stored hash rejects the password, returns the one identical outcome
(none) and leaves the store untouched, with no observable difference
between the two causes. -/
theorem authenticate_failure_uniform (checkpw : String → String → Bool) (db : DB)
    (email password : String) (now : Nat)
    (h : (db.users.find? (fun u => u.email == email)).all
      (fun u => !checkpw password u.password_hash) = true) :
    authenticate_user checkpw db email password now = (none, db) := by
  unfold authenticate_user
  cases hf : db.users.find? (fun u => u.email == email) with
  | none => rfl
  | some u =>
      rw [hf] at h
      simp [Option.all] at h
      simp [h]

/-- Witness for C6: an unregistered email and a wrong password both
produce the identical result on a concrete store. -/
theorem authenticate_failure_uniform_witness :
    authenticate_user wCheck db0ex "nobody@example.com" "secret1" 7 = (none, db0ex) ∧
    authenticate_user wCheck db0ex "alice@example.com" "wrongpw" 7 = (none, db0ex) :=
  ⟨authenticate_failure_uniform wCheck db0ex "nobody@example.com" "secret1" 7 (by decide),
    authenticate_failure_uniform wCheck db0ex "alice@example.com" "wrongpw" 7 (by decide)⟩

/-- C1: evaluating the graded branch of `display_quiz` at a concrete
submitted session shows that each re-render appends a further
ProgressRecord: after one render the progress table holds one row,
after a second render of the same submission it holds two identical
rows, contradicting at-most-once-per-submission. -/
theorem graded_view_rerender_appends_again :
    (display_quiz s1ex db0ex).map (fun db => db.user_progress.length) = some 1 ∧
    ((display_quiz s1ex db0ex).bind (display_quiz s1ex)).map
      (fun db => db.user_progress.length) = some 2 ∧
    ((display_quiz s1ex db0ex).bind (display_quiz s1ex)).map
      (fun db => db.user_progress.map (fun r => (r.user_id, r.topic, r.quiz_score))) =
      some [(1, "Loops", 1), (1, "Loops", 1)] :=
  ⟨rfl, rfl, rfl⟩

/-- Counterexample to C2 as stated: a response parsing to an object
whose questions array holds a single well-formed item is returned as a
one-element sequence without any error signal, which is neither a
sequence of exactly 8 items nor the empty sequence. -/
theorem generate_quiz_returns_unvalidated :
    generate_quiz (some (.jobj [("questions", .jarr [sampleItemJ])])) =
      (.jarr [sampleItemJ], false) ∧
    isValidQuizResult (.jarr [sampleItemJ]) = false ∧
    JVal.jarr [sampleItemJ] ≠ .jarr [] := by
  refine ⟨rfl, rfl, ?_⟩
  intro hcontra
  simp at hcontra

/-- C2 (amended): for every parse outcome, generate_quiz either returns
the value under the questions key of the parsed object, unvalidated and
without an error signal, or returns the empty array with a reportable
error (on parse failure, a non-object result, or a missing questions
key). -/
theorem generate_quiz_amended (parsed : Option JVal) :
    (∃ kvs q, parsed = some (.jobj kvs) ∧ jLookup kvs "questions" = some q ∧
      generate_quiz parsed = (q, false)) ∨
    generate_quiz parsed = (.jarr [], true) := by
  rcases parsed with _ | v
  · exact Or.inr rfl
  · cases v with
    | jobj kvs =>
        cases hq : jLookup kvs "questions" with
        | none => exact Or.inr (by simp [generate_quiz, hq])
        | some q => exact Or.inl ⟨kvs, q, rfl, hq, by simp [generate_quiz, hq]⟩
    | jnull => exact Or.inr rfl
    | jbool b => exact Or.inr rfl
    | jnum n => exact Or.inr rfl
    | jstr s => exact Or.inr rfl
    | jarr xs => exact Or.inr rfl
